import Mathlib

/-!
Verification of the decline-rebound volatility event detection engine and the
client glue of the stock-analysis dashboard.

The client code (`client/features/AiQuestionSection.tsx`, `client/lib/api.ts`)
is embedded from the TypeScript source.  The engine itself (Window Scanner,
Event Aggregator, Result Assembler) and the response types consumed by the
client are not part of the checked-in sources, so they are modelled from the
design document, as marked on each definition.
-/

namespace StockApp

/-- One daily price bar.  `date` is the trading-day ordinal of the bar (the
series is gap-free in trading-day order, so the ordinal measures trading-day
distance); `close` is its closing price. -/
structure Bar where
  date  : Nat
  close : ℚ
  deriving DecidableEq, Repr

/-- Modelled from the spec: `ScanParameters` of the Window Scanner —
`decline_period`/`rebound_period` are maximal window widths in trading days,
`decline_rate` (≤ 0) and `rebound_rate` (≥ 0) are percentage thresholds. -/
structure ScanParameters where
  decline_period : Nat
  decline_rate   : ℚ
  rebound_period : Nat
  rebound_rate   : ℚ
  deriving DecidableEq, Repr

/-- Modelled from the spec: an `Episode` is a decline event (peak, trough)
paired with its first qualifying rebound bar. -/
structure Episode where
  peak    : Bar
  trough  : Bar
  rebound : Bar
  deriving DecidableEq, Repr

/-- Percentage change from `a` to `b`: `(b.close - a.close) / a.close * 100`. -/
def pctChange (a b : Bar) : ℚ :=
  (b.close - a.close) / a.close * 100

/-- One step of the running-maximum fold: replace the accumulator when the
new bar closes strictly higher. -/
def maxStep (acc : Option Bar) (x : Bar) : Option Bar :=
  match acc with
  | none => some x
  | some m => if m.close < x.close then some x else some m

/-- The element of `l` with the greatest `close` (first among equals),
`none` on the empty list. -/
def maxByClose (l : List Bar) : Option Bar :=
  l.foldl maxStep none

/-- One step of the running-minimum fold: replace the accumulator when the
new bar closes strictly lower. -/
def minStep (acc x : Bar) : Bar :=
  if x.close < acc.close then x else acc

/-- The element of `b :: l` with the least `close` (earliest among equals). -/
def minByClose (b : Bar) (l : List Bar) : Bar :=
  l.foldl minStep b

/-- Modelled from the spec: the running peak for candidate trough `t` — the
highest close among the already-visited bars of the current segment that lie
within the trailing `dp`-trading-day window before `t`. -/
def peakFor (prev : List Bar) (t : Bar) (dp : Nat) : Option Bar :=
  maxByClose (prev.filter fun b => b.date < t.date && t.date - b.date ≤ dp)

/-- Bar `b` is a candidate trough for peak `pk`: it lies after the peak,
within `decline_period` trading days of it, and its close is a decline of at
least `decline_rate` percent from the peak close. -/
def troughCand (p : ScanParameters) (pk b : Bar) : Bool :=
  pk.date < b.date && b.date - pk.date ≤ p.decline_period &&
    decide (pctChange pk b ≤ p.decline_rate)

/-- Bar `b` is a qualifying rebound for trough `tr`: it lies after the trough,
within `rebound_period` trading days of it, and its close is a gain of at
least `rebound_rate` percent over the trough close. -/
def reboundCand (p : ScanParameters) (tr b : Bar) : Bool :=
  tr.date < b.date && b.date - tr.date ≤ p.rebound_period &&
    decide (p.rebound_rate ≤ pctChange tr b)

/-- Modelled from the spec: the main loop of the Window Scanner.  Walks the
series left to right keeping the visited bars of the current segment in
`prev`; at each bar it looks up the running peak of the trailing
`decline_period`-day window, treats the bar as a candidate trough when the
decline qualifies, deepens the trough to the lowest qualifying close under the
same peak, then searches forward within `rebound_period` trading days for the
first qualifying rebound.  A resolved (or exhausted) trough restarts the scan
on the bars after the trough.  `fuel` bounds the recursion by the series
length. -/
def scanAux (p : ScanParameters) : Nat → List Bar → List Bar → List Episode
  | 0, _, _ => []
  | _ + 1, _, [] => []
  | fuel + 1, prev, t :: rest =>
    match peakFor prev t p.decline_period with
    | some pk =>
      if troughCand p pk t then
        let tr := minByClose t (rest.filter (troughCand p pk))
        let later := rest.filter fun b => tr.date < b.date
        match later.find? (reboundCand p tr) with
        | some reb => ⟨pk, tr, reb⟩ :: scanAux p fuel [] later
        | none => scanAux p fuel [] later
      else
        scanAux p fuel (prev ++ [t]) rest
    | none => scanAux p fuel (prev ++ [t]) rest

/-- Modelled from the spec: `scan(series, params)`.  Bars with non-positive
close are skipped as corrupt data; the remaining bars are scanned by
`scanAux`. -/
def scan (series : List Bar) (p : ScanParameters) : List Episode :=
  let bars := series.filter fun b => decide (0 < b.close)
  scanAux p bars.length [] bars

/-- The four bounds every reported episode must satisfy: the trough lies
after the peak and within `decline_period` trading days of it with decline
percentage ≤ `decline_rate`, and the rebound lies after the trough and within
`rebound_period` trading days of it with gain percentage ≥ `rebound_rate`. -/
def Qualifies (p : ScanParameters) (e : Episode) : Prop :=
  e.peak.date < e.trough.date ∧
  e.trough.date - e.peak.date ≤ p.decline_period ∧
  pctChange e.peak e.trough ≤ p.decline_rate ∧
  e.trough.date < e.rebound.date ∧
  e.rebound.date - e.trough.date ≤ p.rebound_period ∧
  p.rebound_rate ≤ pctChange e.trough e.rebound

instance (p : ScanParameters) (e : Episode) : Decidable (Qualifies p e) := by
  unfold Qualifies; infer_instance

/-- The example series of the spec: closes 100, 90, 78, 95 on four
consecutive trading days. -/
def exSeries : List Bar :=
  [⟨0, 100⟩, ⟨1, 90⟩, ⟨2, 78⟩, ⟨3, 95⟩]

/-- The example parameters of the spec. -/
def exParams : ScanParameters :=
  { decline_period := 3, decline_rate := -20, rebound_period := 2, rebound_rate := 20 }

/-- The single episode the Window Scanner finds on the example series. -/
def exEpisode : Episode :=
  ⟨⟨0, 100⟩, ⟨2, 78⟩, ⟨3, 95⟩⟩

lemma foldl_minStep_mem : ∀ (l : List Bar) (b : Bar), l.foldl minStep b ∈ b :: l := by
  intro l
  induction l with
  | nil => intro b; simp
  | cons x xs ih =>
    intro b
    have h := ih (minStep b x)
    rcases List.mem_cons.mp h with h1 | h1
    · rw [List.foldl_cons, h1]
      unfold minStep
      split
      · exact List.mem_cons_of_mem _ (List.mem_cons_self _ _)
      · exact List.mem_cons_self _ _
    · exact List.mem_cons_of_mem _ (List.mem_cons_of_mem _ h1)

lemma minByClose_mem (b : Bar) (l : List Bar) : minByClose b l ∈ b :: l :=
  foldl_minStep_mem l b

lemma troughCand_iff {p : ScanParameters} {pk b : Bar} :
    troughCand p pk b = true ↔
      pk.date < b.date ∧ b.date - pk.date ≤ p.decline_period ∧
        pctChange pk b ≤ p.decline_rate := by
  simp [troughCand, and_assoc]

lemma reboundCand_iff {p : ScanParameters} {tr b : Bar} :
    reboundCand p tr b = true ↔
      tr.date < b.date ∧ b.date - tr.date ≤ p.rebound_period ∧
        p.rebound_rate ≤ pctChange tr b := by
  simp [reboundCand, and_assoc]

lemma scanAux_qualifies (p : ScanParameters) :
    ∀ (fuel : Nat) (prev l : List Bar) (e : Episode),
      e ∈ scanAux p fuel prev l → Qualifies p e := by
  intro fuel
  induction fuel with
  | zero => intro prev l e h; simp [scanAux] at h
  | succ n ih =>
    intro prev l e h
    cases l with
    | nil => simp [scanAux] at h
    | cons t rest =>
      simp only [scanAux] at h
      split at h
      · -- running peak found
        rename_i pk hpk
        split at h
        · -- the current bar is a candidate trough
          rename_i htc
          split at h
          · -- a qualifying rebound exists: an episode is emitted
            rename_i reb hfind
            rcases List.mem_cons.mp h with he | he
            · subst he
              have htr : troughCand p pk (minByClose t (rest.filter (troughCand p pk))) = true := by
                rcases List.mem_cons.mp
                    (minByClose_mem t (rest.filter (troughCand p pk))) with h1 | h1
                · rw [h1]; exact htc
                · exact (List.mem_filter.mp h1).2
              have hreb := List.find?_some hfind
              rcases troughCand_iff.mp htr with ⟨h1, h2, h3⟩
              rcases reboundCand_iff.mp hreb with ⟨h4, h5, h6⟩
              exact ⟨h1, h2, h3, h4, h5, h6⟩
            · exact ih _ _ _ he
          · exact ih _ _ _ h
        · exact ih _ _ _ h
      · exact ih _ _ _ h

/-- C1: for every input series and every `ScanParameters`, every `Episode`
returned by the Window Scanner satisfies all four bounds: the trough lies
within `decline_period` trading days after its peak with
`(trough_price - peak_price)/peak_price × 100 ≤ decline_rate`, and the
rebound lies within `rebound_period` trading days after the trough with
`(rebound_price - trough_price)/trough_price × 100 ≥ rebound_rate`. -/
theorem scan_episodes_qualify (series : List Bar) (p : ScanParameters)
    (e : Episode) (h : e ∈ scan series p) : Qualifies p e := by
  exact scanAux_qualifies p _ _ _ e h

/-- Witness for C1 at the spec's example series and parameters. -/
theorem scan_episodes_qualify_witness :
    exEpisode ∈ scan exSeries exParams ∧ Qualifies exParams exEpisode := by
  have hmem : exEpisode ∈ scan exSeries exParams := by
    norm_num [scan, scanAux, peakFor, maxByClose, maxStep, minByClose, minStep,
      troughCand, reboundCand, pctChange, exSeries, exParams, exEpisode,
      List.filter, List.find?, List.foldl]
  exact ⟨hmem, scan_episodes_qualify exSeries exParams exEpisode hmem⟩

/-- C2: on the series with closes 100, 90, 78, 95 over four consecutive
trading days, with `decline_period = 3`, `decline_rate = -20`,
`rebound_period = 2`, `rebound_rate = 20`, the scan returns exactly one
episode, whose trough price is 78 and whose rebound is the fourth bar
(close 95). -/
theorem scan_example : scan exSeries exParams = [exEpisode] ∧
    exEpisode.trough.close = 78 ∧ exEpisode.rebound = ⟨3, 95⟩ := by
  refine ⟨?_, rfl, rfl⟩
  norm_num [scan, scanAux, peakFor, maxByClose, maxStep, minByClose, minStep,
    troughCand, reboundCand, pctChange, exSeries, exParams, exEpisode,
    List.filter, List.find?, List.foldl]

/-- Two successive runs of the scan on the same inputs, as a pair. -/
def runScanTwice (series : List Bar) (p : ScanParameters) :
    List Episode × List Episode :=
  (scan series p, scan series p)

/-- C8: the scan is a deterministic, stateless function of its inputs — two
runs on the same series and parameters yield identical result lists. -/
theorem scan_deterministic (series : List Bar) (p : ScanParameters) :
    (runScanTwice series p).1 = (runScanTwice series p).2 := rfl

/-- Modelled from the spec: the per-ticker summary produced by the Event
Aggregator — ticker symbol, display name, episode count and the most recent
episode. -/
structure TickerSummary where
  ticker : String
  name : String
  occurrence_count : Nat
  most_recent : Episode

/-- The Result Assembler's order: descending `occurrence_count`, ties broken
by descending `most_recent` rebound date, remaining ties by ascending ticker
symbol. -/
def summaryLE (a b : TickerSummary) : Prop :=
  b.occurrence_count < a.occurrence_count ∨
    (a.occurrence_count = b.occurrence_count ∧
      (b.most_recent.rebound.date < a.most_recent.rebound.date ∨
        (a.most_recent.rebound.date = b.most_recent.rebound.date ∧
          a.ticker ≤ b.ticker)))

instance : DecidableRel summaryLE := fun a b => by
  unfold summaryLE; infer_instance

instance : IsTotal TickerSummary summaryLE := by
  constructor
  intro a b
  unfold summaryLE
  rcases Nat.lt_trichotomy a.occurrence_count b.occurrence_count with h1 | h1 | h1
  · right; left; exact h1
  · rcases Nat.lt_trichotomy a.most_recent.rebound.date b.most_recent.rebound.date
        with h2 | h2 | h2
    · right; right; exact ⟨h1.symm, Or.inl h2⟩
    · rcases le_total a.ticker b.ticker with h3 | h3
      · left; right; exact ⟨h1, Or.inr ⟨h2, h3⟩⟩
      · right; right; exact ⟨h1.symm, Or.inr ⟨h2.symm, h3⟩⟩
    · left; right; exact ⟨h1, Or.inl h2⟩
  · left; left; exact h1

instance : IsTrans TickerSummary summaryLE := by
  constructor
  intro a b c hab hbc
  unfold summaryLE at hab hbc ⊢
  rcases hab with h1 | ⟨he1, hd1⟩
  · rcases hbc with h2 | ⟨he2, hd2⟩
    · left; omega
    · left; omega
  · rcases hbc with h2 | ⟨he2, hd2⟩
    · left; omega
    · right
      refine ⟨he1.trans he2, ?_⟩
      rcases hd1 with h3 | ⟨hf1, ht1⟩
      · rcases hd2 with h4 | ⟨hf2, ht2⟩
        · left; omega
        · left; omega
      · rcases hd2 with h4 | ⟨hf2, ht2⟩
        · left; omega
        · right; exact ⟨hf1.trans hf2, le_trans ht1 ht2⟩

/-- Modelled from the spec: the Result Assembler — drops summaries with
`occurrence_count == 0` and sorts the rest by `summaryLE`. -/
def assemble (summaries : List TickerSummary) : List TickerSummary :=
  List.insertionSort summaryLE
    (summaries.filter fun s => s.occurrence_count != 0)

/-- C3: for every list of summaries, the assembled list contains no entry
with `occurrence_count == 0` and is sorted by descending `occurrence_count`,
ties broken by descending most-recent rebound date, remaining ties by
ascending ticker symbol — a total, transitive order. -/
theorem assemble_filters_and_sorts (summaries : List TickerSummary) :
    (∀ s ∈ assemble summaries, s.occurrence_count ≠ 0) ∧
      (assemble summaries).Sorted summaryLE ∧
      (∀ a b : TickerSummary, summaryLE a b ∨ summaryLE b a) := by
  refine ⟨?_, ?_, ?_⟩
  · intro s hs
    have hmem : s ∈ summaries.filter fun s => s.occurrence_count != 0 :=
      (List.mem_insertionSort summaryLE).mp hs
    simpa using (List.mem_filter.mp hmem).2
  · exact List.sorted_insertionSort summaryLE _
  · exact fun a b => total_of summaryLE a b

/-! ### Client-side state machine (`client/features/AiQuestionSection.tsx`) -/

/-- Modelled from the spec: one event of a found stock's `events` array —
the response's `{ trough_date, trough_price }` records.  The TypeScript
declaration (`EventInfo` in the types module) is not among the checked-in
sources. -/
structure EventInfo where
  trough_date : Nat
  trough_price : ℚ
  deriving DecidableEq

/-- Modelled from the spec: one entry of the response's `found_stocks` array.
The TypeScript declaration (`FluctuationStockInfo`) is not among the
checked-in sources; the fields follow the response shape of the design
document. -/
structure FluctuationStockInfo where
  ticker : String
  name : String
  occurrence_count : Nat
  recent_trough_date : Nat
  recent_trough_price : ℚ
  recent_rebound_date : Nat
  recent_rebound_performance : ℚ
  events : List EventInfo
  deriving DecidableEq

/-- The `selectedTicker` record of `FluctuationAnalysisSection`. -/
structure ChartSelection where
  ticker : String
  history : List Bar
  events : List EventInfo
  errMsg : Option String
  deriving DecidableEq

/-- The React state of `FluctuationAnalysisSection` that the handlers
read and write. -/
structure FluctState where
  analysisData : List FluctuationStockInfo
  error : Option String
  progress : Nat
  loading : Bool
  selected : Option ChartSelection
  deriving DecidableEq

/-- The analysis request assembled by `handleAnalyze`; `start_date` and
`end_date` are `none` when the corresponding date picker is unset, and dates
are day ordinals. -/
structure AnalyzeRequest where
  country : String
  market : String
  start_date : Option Nat
  end_date : Option Nat
  decline_period : Int
  decline_rate : ℚ
  rebound_period : Int
  rebound_rate : ℚ
  deriving DecidableEq

/-- The synchronous guard of `handleAnalyze`:
`if (!market || !dates.start || !dates.end)`. -/
def analyzeRejects (r : AnalyzeRequest) : Bool :=
  r.market == "" || r.start_date.isNone || r.end_date.isNone

/-- `handleAnalyze`, given the request's outcome (`analyzeFluctuations`
resolving with found stocks, or rejecting with an error message).  The second
component records whether the `analyzeFluctuations` request was issued.
On rejection by the guard the handler only sets the error message; otherwise
it clears the result list, selection, error and progress, issues the request,
and on resolution stores the found stocks (progress 100) or, on rejection,
keeps the cleared list, sets the error message (the thrown message, with a
fixed fallback when empty) and resets progress to 0; `loading` ends false
either way. -/
def handleAnalyze (s : FluctState) (r : AnalyzeRequest)
    (outcome : Except String (List FluctuationStockInfo)) : FluctState × Bool :=
  if analyzeRejects r then
    ({ s with error := some "모든 값을 올바르게 입력해주세요." }, false)
  else
    match outcome with
    | Except.ok stocks =>
      ({ analysisData := stocks, error := none, progress := 100,
         loading := false, selected := none }, true)
    | Except.error msg =>
      ({ analysisData := [], error := some (if msg == "" then "분석 중 오류가 발생했습니다." else msg),
         progress := 0, loading := false, selected := none }, true)

/-- The market lists of `MARKET_OPTIONS`. -/
def knownMarkets : List String := ["NASDAQ", "NYSE", "S&P500", "KOSPI", "KOSDAQ"]

/-- The malformed-parameter class of the claim: non-positive periods, end
date before start date, or unknown/empty market. -/
def MalformedRequest (r : AnalyzeRequest) : Prop :=
  r.decline_period ≤ 0 ∨ r.rebound_period ≤ 0 ∨
    (∃ a b, r.start_date = some a ∧ r.end_date = some b ∧ b < a) ∨
    r.market ∉ knownMarkets

/-- A request that is malformed in the claim's sense (non-positive periods
and end date before start date) yet passes the client's guard. -/
def badRequest : AnalyzeRequest :=
  { country := "KR", market := "KOSPI", start_date := some 10, end_date := some 3,
    decline_period := 0, decline_rate := -20, rebound_period := 0, rebound_rate := 20 }

/-- A previously displayed result entry. -/
def prevStock : FluctuationStockInfo :=
  { ticker := "AAA", name := "Alpha", occurrence_count := 2,
    recent_trough_date := 7, recent_trough_price := 50,
    recent_rebound_date := 9, recent_rebound_performance := 25, events := [] }

/-- A state with previously displayed results. -/
def prevState : FluctState :=
  { analysisData := [prevStock], error := none, progress := 100,
    loading := false, selected := none }

/-- Counterexample to C4: `badRequest` has non-positive periods and its end
date precedes its start date, yet `handleAnalyze` issues the
`analyzeFluctuations` request (second component `true`) instead of rejecting
synchronously. -/
theorem handleAnalyze_skips_param_validation :
    MalformedRequest badRequest ∧
      (handleAnalyze prevState badRequest (Except.ok [])).2 = true := by
  constructor
  · exact Or.inl (by norm_num [badRequest])
  · rfl

/-- C4 (amended): for every request with empty market or a missing start or
end date, `handleAnalyze` rejects synchronously — it sets the input-error
message, issues no request, and leaves the previously displayed result list
unchanged. -/
theorem handleAnalyze_rejects_missing_inputs (s : FluctState) (r : AnalyzeRequest)
    (o : Except String (List FluctuationStockInfo)) (h : analyzeRejects r = true) :
    (handleAnalyze s r o).2 = false ∧
      (handleAnalyze s r o).1.analysisData = s.analysisData ∧
      (handleAnalyze s r o).1.error = some "모든 값을 올바르게 입력해주세요." := by
  simp [handleAnalyze, h]

/-- Witness for C4 (amended): a request with an empty market is rejected with
no request issued and the previous results kept. -/
theorem handleAnalyze_rejects_missing_inputs_witness :
    (handleAnalyze prevState { badRequest with market := "" } (Except.ok [])).2 = false ∧
      (handleAnalyze prevState { badRequest with market := "" }
          (Except.ok [])).1.analysisData = prevState.analysisData ∧
      (handleAnalyze prevState { badRequest with market := "" }
          (Except.ok [])).1.error = some "모든 값을 올바르게 입력해주세요." :=
  handleAnalyze_rejects_missing_inputs prevState { badRequest with market := "" }
    (Except.ok []) rfl

/-- C5: whenever the `analyzeFluctuations` request fails, the outcome is
all-or-nothing — the stored result list is empty, an error message is set,
and progress is reset to 0. -/
theorem handleAnalyze_failure_all_or_nothing (s : FluctState) (r : AnalyzeRequest)
    (msg : String) (h : analyzeRejects r = false) :
    (handleAnalyze s r (Except.error msg)).1.analysisData = [] ∧
      (handleAnalyze s r (Except.error msg)).1.error.isSome = true ∧
      (handleAnalyze s r (Except.error msg)).1.progress = 0 := by
  simp [handleAnalyze, h]

/-- Witness for C5 at a concrete state, request and failure message. -/
theorem handleAnalyze_failure_all_or_nothing_witness :
    (handleAnalyze prevState badRequest (Except.error "timeout")).1.analysisData = [] ∧
      (handleAnalyze prevState badRequest (Except.error "timeout")).1.error.isSome = true ∧
      (handleAnalyze prevState badRequest (Except.error "timeout")).1.progress = 0 :=
  handleAnalyze_failure_all_or_nothing prevState badRequest "timeout" rfl

/-- The error alert is rendered exactly when `error` is set. -/
def showsErrorAlert (s : FluctState) : Bool :=
  s.error.isSome

/-- The neutral placeholder is rendered when not loading, no error is set and
the result list is empty (`!loading && !error && analysisData.length === 0`). -/
def showsPlaceholder (s : FluctState) : Bool :=
  !s.loading && !s.error.isSome && decide (s.analysisData.length = 0)

/-- C6: a response with an empty `found_stocks` list completes without error:
the empty list is stored, no error state is set, and the neutral placeholder
(not the error alert) is rendered. -/
theorem handleAnalyze_empty_result_no_error (s : FluctState) (r : AnalyzeRequest)
    (h : analyzeRejects r = false) :
    (handleAnalyze s r (Except.ok [])).1.analysisData = [] ∧
      (handleAnalyze s r (Except.ok [])).1.error = none ∧
      showsErrorAlert (handleAnalyze s r (Except.ok [])).1 = false ∧
      showsPlaceholder (handleAnalyze s r (Except.ok [])).1 = true := by
  simp [handleAnalyze, h, showsErrorAlert, showsPlaceholder]

/-- Witness for C6 at a concrete state and request. -/
theorem handleAnalyze_empty_result_no_error_witness :
    (handleAnalyze prevState badRequest (Except.ok [])).1.analysisData = [] ∧
      (handleAnalyze prevState badRequest (Except.ok [])).1.error = none ∧
      showsErrorAlert (handleAnalyze prevState badRequest (Except.ok [])).1 = false ∧
      showsPlaceholder (handleAnalyze prevState badRequest (Except.ok [])).1 = true :=
  handleAnalyze_empty_result_no_error prevState badRequest rfl

/-- The selection `handleRowClick` installs synchronously, before the history
request resolves: the clicked ticker with empty history and its scan
events. -/
def rowClickImmediate (stock : FluctuationStockInfo) : ChartSelection :=
  { ticker := stock.ticker, history := [], events := stock.events, errMsg := none }

/-- The selection after a failed history fetch: ticker and scan events are
kept, only the error message is added. -/
def rowClickFailed (stock : FluctuationStockInfo) : ChartSelection :=
  { ticker := stock.ticker, history := [], events := stock.events,
    errMsg := some "주가 정보를 불러오지 못했습니다." }

/-- The selection after a successful history fetch. -/
def rowClickLoaded (stock : FluctuationStockInfo) (h : List Bar) : ChartSelection :=
  { ticker := stock.ticker, history := h, events := stock.events, errMsg := none }

/-- The non-toggle branch of `handleRowClick`: install the immediate
selection; when both dates are set, issue the history fetch and on success
store the fetched history, on failure keep ticker and events and add the
error message.  The second component records whether the fetch was issued. -/
def rowClickFetch (s : FluctState) (stock : FluctuationStockInfo)
    (datesPresent : Bool) (outcome : Except String (List Bar)) :
    FluctState × Bool :=
  if !datesPresent then
    ({ s with selected := some (rowClickImmediate stock) }, false)
  else
    match outcome with
    | Except.ok h =>
      ({ s with selected := some (rowClickLoaded stock h) }, true)
    | Except.error _ =>
      ({ s with selected := some (rowClickFailed stock) }, true)

/-- `handleRowClick`: clicking the already-selected row clears the selection
without fetching; clicking any other row runs `rowClickFetch`. -/
def handleRowClick (s : FluctState) (stock : FluctuationStockInfo)
    (datesPresent : Bool) (outcome : Except String (List Bar)) :
    FluctState × Bool :=
  match s.selected with
  | some sel =>
    if sel.ticker == stock.ticker then ({ s with selected := none }, false)
    else rowClickFetch s stock datesPresent outcome
  | none => rowClickFetch s stock datesPresent outcome

lemma rowClickFetch_selected_isSome (s : FluctState) (stock : FluctuationStockInfo)
    (datesPresent : Bool) (outcome : Except String (List Bar)) :
    (rowClickFetch s stock datesPresent outcome).1.selected ≠ none := by
  unfold rowClickFetch
  cases datesPresent with
  | false => simp
  | true => cases outcome <;> simp

lemma rowClickFetch_analysisData (s : FluctState) (stock : FluctuationStockInfo)
    (datesPresent : Bool) (outcome : Except String (List Bar)) :
    (rowClickFetch s stock datesPresent outcome).1.analysisData = s.analysisData := by
  unfold rowClickFetch
  cases datesPresent with
  | false => rfl
  | true => cases outcome <;> rfl

/-- C10: clicking the selected row clears the selection and fetches nothing;
clicking another row installs the clicked ticker with its scan events
immediately, and a failed history fetch leaves a selection that still carries
that ticker and those events, gaining only an error message; the scan result
list survives every row click. -/
theorem handleRowClick_behavior (s : FluctState) (stock : FluctuationStockInfo)
    (datesPresent : Bool) (outcome : Except String (List Bar)) :
    (∀ sel, s.selected = some sel → sel.ticker = stock.ticker →
        handleRowClick s stock datesPresent outcome = ({ s with selected := none }, false)) ∧
      ((∀ sel, s.selected = some sel → sel.ticker ≠ stock.ticker) →
        (rowClickFetch s stock datesPresent outcome).1.selected ≠ none ∧
          (∀ msg, datesPresent = true → outcome = Except.error msg →
            handleRowClick s stock datesPresent outcome =
              ({ s with selected := some (rowClickFailed stock) }, true))) ∧
      (handleRowClick s stock datesPresent outcome).1.analysisData = s.analysisData := by
  refine ⟨?_, ?_, ?_⟩
  · intro sel hsel hticker
    simp [handleRowClick, hsel, hticker]
  · intro hdiff
    refine ⟨rowClickFetch_selected_isSome s stock datesPresent outcome, ?_⟩
    intro msg hd ho
    subst hd; subst ho
    unfold handleRowClick
    cases hsel : s.selected with
    | none => simp [rowClickFetch]
    | some sel =>
      have hne : (sel.ticker == stock.ticker) = false :=
        beq_eq_false_iff_ne.mpr (hdiff sel hsel)
      simp [hne, rowClickFetch]
  · unfold handleRowClick
    cases s.selected with
    | none => exact rowClickFetch_analysisData s stock datesPresent outcome
    | some sel =>
      by_cases h : (sel.ticker == stock.ticker) = true
      · simp [h]
      · rw [Bool.not_eq_true] at h
        simp only [h, Bool.false_eq_true, if_false]
        exact rowClickFetch_analysisData s stock datesPresent outcome

/-- Witness for C10: with nothing selected, a click whose fetch fails keeps
the clicked stock's ticker and events and the previous result list. -/
theorem handleRowClick_behavior_witness :
    (handleRowClick prevState prevStock true (Except.error "down")).1.selected =
        some (rowClickFailed prevStock) ∧
      (handleRowClick prevState prevStock true (Except.error "down")).1.analysisData =
        prevState.analysisData := by
  have h := handleRowClick_behavior prevState prevStock true (Except.error "down")
  have h2 := (h.2.1 (by intro sel hsel; simp [prevState] at hsel)).2 "down" rfl rfl
  exact ⟨by rw [h2], h.2.2⟩

/-! ### Response shape and client consumption -/

/-- Modelled from the spec: the fields carried by each entry of the
response's `found_stocks` array. -/
def responseStockFields : List String :=
  ["ticker", "name", "occurrence_count", "recent_trough_date",
   "recent_trough_price", "recent_rebound_date",
   "recent_rebound_performance", "events"]

/-- Modelled from the spec: the fields carried by each element of a found
stock's `events` array. -/
def responseEventFields : List String :=
  ["trough_date", "trough_price"]

/-- The found-stock fields the result table of
`FluctuationAnalysisSection` reads. -/
def tableConsumedFields : List String :=
  ["ticker", "name", "occurrence_count", "recent_trough_date",
   "recent_trough_price", "recent_rebound_date", "recent_rebound_performance"]

/-- The found-stock fields `handleRowClick` reads when opening the detail
chart. -/
def rowClickConsumedFields : List String :=
  ["ticker", "events"]

/-- The event fields `DetailChart` reads (trough markers of the chart). -/
def chartConsumedEventFields : List String :=
  ["trough_date", "trough_price"]

/-- The tuple of values one table row renders. -/
def tableRow (st : FluctuationStockInfo) :
    String × String × Nat × Nat × ℚ × Nat × ℚ :=
  (st.ticker, st.name, st.occurrence_count, st.recent_trough_date,
   st.recent_trough_price, st.recent_rebound_date, st.recent_rebound_performance)

/-- The point `DetailChart` marks for one event. -/
def chartDot (e : EventInfo) : Nat × ℚ :=
  (e.trough_date, e.trough_price)

/-- C7: the response's found-stock fields are exactly those the client
consumes (result table plus row-click/detail chart), and the response's
event fields are exactly those the detail chart consumes. -/
theorem response_fields_match_consumption :
    (∀ f, f ∈ responseStockFields ↔
        f ∈ tableConsumedFields ∨ f ∈ rowClickConsumedFields) ∧
      (∀ f, f ∈ responseEventFields ↔ f ∈ chartConsumedEventFields) := by
  constructor
  · intro f
    simp only [responseStockFields, tableConsumedFields, rowClickConsumedFields,
      List.mem_cons, List.not_mem_nil, or_false]
    tauto
  · intro f
    simp [responseEventFields, chartConsumedEventFields]

/-! ### Client API module (`client/lib/api.ts`) -/

/-- A JSON value, as far as the client API module inspects one. -/
inductive Json where
  | null : Json
  | str : String → Json
  | num : ℚ → Json
  | arr : List Json → Json
  | obj : List (String × Json) → Json

/-- An HTTP response as the API module sees it: the `ok` flag and the parsed
JSON body. -/
structure HttpResponse where
  ok : Bool
  body : Json

/-- The string-valued `detail` field of an error body, when present. -/
def jsonDetail (j : Json) : Option String :=
  match j with
  | Json.obj fields =>
    match fields.lookup "detail" with
    | some (Json.str s) => some s
    | _ => none
  | _ => none

/-- The thrown message: `errorData.detail || fallback` — the body's `detail`
field when present and non-empty, the fixed fallback otherwise. -/
def errMessage (body : Json) (fallback : String) : String :=
  match jsonDetail body with
  | some d => if d == "" then fallback else d
  | none => fallback

/-- Projection of an object body onto one field (`undefined`-as-`null`). -/
def jsonField (body : Json) (key : String) : Json :=
  match body with
  | Json.obj fields => (fields.lookup key).getD Json.null
  | _ => Json.null

/-- `getStockProfile`: the parsed body on ok, otherwise a thrown error. -/
def getStockProfile (resp : HttpResponse) : Except String Json :=
  if resp.ok then Except.ok resp.body
  else Except.error (errMessage resp.body "기업 프로필 정보를 가져오지 못했습니다.")

/-- `getFinancialSummary`: the parsed body on ok, otherwise a thrown error. -/
def getFinancialSummary (resp : HttpResponse) : Except String Json :=
  if resp.ok then Except.ok resp.body
  else Except.error (errMessage resp.body "재무 요약 정보를 가져오지 못했습니다.")

/-- `getInvestmentMetrics`: the parsed body on ok, otherwise a thrown error. -/
def getInvestmentMetrics (resp : HttpResponse) : Except String Json :=
  if resp.ok then Except.ok resp.body
  else Except.error (errMessage resp.body "투자 지표 정보를 가져오지 못했습니다.")

/-- `getMarketData`: the parsed body on ok, otherwise a thrown error. -/
def getMarketData (resp : HttpResponse) : Except String Json :=
  if resp.ok then Except.ok resp.body
  else Except.error (errMessage resp.body "시장 데이터를 가져오지 못했습니다.")

/-- `getAnalystRecommendations`: the parsed body on ok, otherwise a thrown
error. -/
def getAnalystRecommendations (resp : HttpResponse) : Except String Json :=
  if resp.ok then Except.ok resp.body
  else Except.error (errMessage resp.body "분석가 추천 정보를 가져오지 못했습니다.")

/-- `getStockOfficers`: the parsed body on ok, otherwise a thrown error. -/
def getStockOfficers (resp : HttpResponse) : Except String Json :=
  if resp.ok then Except.ok resp.body
  else Except.error (errMessage resp.body "임원 정보를 가져오지 못했습니다.")

/-- `getFinancialStatement`: the parsed body on ok, otherwise a thrown error
(the statement-type argument only selects the URL, so it does not appear in
the response handling modelled here). -/
def getFinancialStatement (resp : HttpResponse) : Except String Json :=
  if resp.ok then Except.ok resp.body
  else Except.error (errMessage resp.body "재무제표를 가져오지 못했습니다.")

/-- `getStockHistory`: the parsed body on ok, otherwise a thrown error. -/
def getStockHistory (resp : HttpResponse) : Except String Json :=
  if resp.ok then Except.ok resp.body
  else Except.error (errMessage resp.body "주가 히스토리 데이터를 가져오지 못했습니다.")

/-- `fetchStockNews`: the `news` field of the parsed body on ok, otherwise a
thrown error (the limit argument only selects the URL). -/
def fetchStockNews (resp : HttpResponse) : Except String Json :=
  if resp.ok then Except.ok (jsonField resp.body "news")
  else Except.error (errMessage resp.body "뉴스 정보를 가져오지 못했습니다.")

/-- `getTranslation`: the `translated_text` field of the parsed body on ok,
otherwise a thrown error. -/
def getTranslation (resp : HttpResponse) : Except String Json :=
  if resp.ok then Except.ok (jsonField resp.body "translated_text")
  else Except.error (errMessage resp.body "번역에 실패했습니다.")

/-- `askAi`: the parsed body on ok, otherwise a thrown error. -/
def askAi (resp : HttpResponse) : Except String Json :=
  if resp.ok then Except.ok resp.body
  else Except.error (errMessage resp.body "AI 응답을 가져오지 못했습니다.")

/-- An ok response to the translate endpoint. -/
def okTranslateResponse : HttpResponse :=
  { ok := true, body := Json.obj [("translated_text", Json.str "안녕하세요")] }

/-- Counterexample to C9: on an ok translate response, `getTranslation`
returns the body's `translated_text` field, not the parsed body itself. -/
theorem getTranslation_not_whole_body :
    getTranslation okTranslateResponse ≠ Except.ok okTranslateResponse.body := by
  simp [getTranslation, okTranslateResponse, jsonField, List.lookup]

/-- C9 (amended): every exported request function of the client API module —
on an ok response the object-returning functions (`getStockProfile`,
`getFinancialSummary`, `getInvestmentMetrics`, `getMarketData`,
`getAnalystRecommendations`, `getStockOfficers`, `getFinancialStatement`,
`getStockHistory`, `askAi`) return the parsed body, while `getTranslation`
returns its `translated_text` field and `fetchStockNews` its `news` field;
on a non-ok response every function throws an error whose message is the
body's `detail` field when present and non-empty or its fixed fallback, and
no function returns a normal value. -/
theorem api_request_behavior (resp : HttpResponse) :
    (resp.ok = true →
      getStockProfile resp = Except.ok resp.body ∧
        getFinancialSummary resp = Except.ok resp.body ∧
        getInvestmentMetrics resp = Except.ok resp.body ∧
        getMarketData resp = Except.ok resp.body ∧
        getAnalystRecommendations resp = Except.ok resp.body ∧
        getStockOfficers resp = Except.ok resp.body ∧
        getFinancialStatement resp = Except.ok resp.body ∧
        getStockHistory resp = Except.ok resp.body ∧
        askAi resp = Except.ok resp.body ∧
        getTranslation resp = Except.ok (jsonField resp.body "translated_text") ∧
        fetchStockNews resp = Except.ok (jsonField resp.body "news")) ∧
      (resp.ok = false →
        getStockProfile resp =
            Except.error (errMessage resp.body "기업 프로필 정보를 가져오지 못했습니다.") ∧
          getFinancialSummary resp =
            Except.error (errMessage resp.body "재무 요약 정보를 가져오지 못했습니다.") ∧
          getInvestmentMetrics resp =
            Except.error (errMessage resp.body "투자 지표 정보를 가져오지 못했습니다.") ∧
          getMarketData resp =
            Except.error (errMessage resp.body "시장 데이터를 가져오지 못했습니다.") ∧
          getAnalystRecommendations resp =
            Except.error (errMessage resp.body "분석가 추천 정보를 가져오지 못했습니다.") ∧
          getStockOfficers resp =
            Except.error (errMessage resp.body "임원 정보를 가져오지 못했습니다.") ∧
          getFinancialStatement resp =
            Except.error (errMessage resp.body "재무제표를 가져오지 못했습니다.") ∧
          getStockHistory resp =
            Except.error (errMessage resp.body "주가 히스토리 데이터를 가져오지 못했습니다.") ∧
          askAi resp =
            Except.error (errMessage resp.body "AI 응답을 가져오지 못했습니다.") ∧
          getTranslation resp =
            Except.error (errMessage resp.body "번역에 실패했습니다.") ∧
          fetchStockNews resp =
            Except.error (errMessage resp.body "뉴스 정보를 가져오지 못했습니다.") ∧
          (∀ v, getStockProfile resp ≠ Except.ok v) ∧
          (∀ v, getFinancialSummary resp ≠ Except.ok v) ∧
          (∀ v, getInvestmentMetrics resp ≠ Except.ok v) ∧
          (∀ v, getMarketData resp ≠ Except.ok v) ∧
          (∀ v, getAnalystRecommendations resp ≠ Except.ok v) ∧
          (∀ v, getStockOfficers resp ≠ Except.ok v) ∧
          (∀ v, getFinancialStatement resp ≠ Except.ok v) ∧
          (∀ v, getStockHistory resp ≠ Except.ok v) ∧
          (∀ v, askAi resp ≠ Except.ok v) ∧
          (∀ v, getTranslation resp ≠ Except.ok v) ∧
          (∀ v, fetchStockNews resp ≠ Except.ok v)) := by
  constructor
  · intro h
    simp [getStockProfile, getFinancialSummary, getInvestmentMetrics,
      getMarketData, getAnalystRecommendations, getStockOfficers,
      getFinancialStatement, getStockHistory, askAi, getTranslation,
      fetchStockNews, h]
  · intro h
    simp [getStockProfile, getFinancialSummary, getInvestmentMetrics,
      getMarketData, getAnalystRecommendations, getStockOfficers,
      getFinancialStatement, getStockHistory, askAi, getTranslation,
      fetchStockNews, h]

/-- A failed response whose body carries a `detail` message. -/
def failedResponse : HttpResponse :=
  { ok := false, body := Json.obj [("detail", Json.str "서버 오류")] }

/-- Witness for C9 (amended) at concrete ok and non-ok responses, covering a
body-returning function, a field-returning function and two throwing
paths. -/
theorem api_request_behavior_witness :
    getStockProfile okTranslateResponse = Except.ok okTranslateResponse.body ∧
      getTranslation okTranslateResponse = Except.ok (Json.str "안녕하세요") ∧
      fetchStockNews failedResponse = Except.error "서버 오류" ∧
      getStockProfile failedResponse = Except.error "서버 오류" := by
  obtain ⟨hp, -, -, -, -, -, -, -, -, ht, -⟩ :=
    (api_request_behavior okTranslateResponse).1 rfl
  obtain ⟨hp2, -, -, -, -, -, -, -, -, -, hn2, -⟩ :=
    (api_request_behavior failedResponse).2 rfl
  refine ⟨hp, ?_, ?_, ?_⟩
  · rw [ht]; rfl
  · rw [hn2]; rfl
  · rw [hp2]; rfl

end StockApp
